import Mathlib

/-!
Verification development for the spiped per-connection lifecycle engine
(src/lib/proto/proto_conn.c) and the socket-address utilities
(src/libcperciva/util/sock_util.c).

The C code is shallowly embedded:

* `ConnState` mirrors `struct conn_state`.  Pointer-valued fields that the
  orchestrator only tests against NULL and cancels (cancellation cookies,
  pipe handles, the owned target-address list) are modelled as `Option Unit`;
  the derived keys are `Option Nat` (an abstract non-null key identity).
  The upstream death callback is modelled by its observable behaviour, a
  function from the drop reason to the int it returns; the opaque upstream
  cookie, the shared secret `K` and the bind address only flow through the
  C code unexamined and are omitted from the record.
* Each C function is translated to a Lean function that returns the list of
  externally visible actions it performs (an `Act` trace, in program
  order) together with its result.  Fallible external primitives
  (`events_timer_register_double`, `network_connect_bind`,
  `proto_handshake`, `proto_pipe`) are given their success/failure outcome
  by an explicit environment record, one Boolean per call site.
* `Step`/`Reachable` give the event-loop semantics: a callback may fire only
  while its cancellation cookie is live, and only transitions whose result
  keeps the connection alive produce a successor state (a drop frees the
  state, so a dropped connection has no successor).
-/

/-- The four `PROTO_CONN_*` drop reasons of proto_conn.h. -/
inductive Reason where
  | connectFailed
  | handshakeFailed
  | closed
  | error
deriving DecidableEq, Repr

/-- Externally visible actions of the orchestrator, in program order.
Registrations and start attempts carry the outcome reported by the external
primitive; `startHandshake` also records which socket the handshake runs on. -/
inductive Act where
  | closeFd (fd : Int)
  | cancelConnect
  | freeAddrList
  | cancelHandshake
  | cancelConnectTimer
  | cancelHandshakeTimer
  | freeKey (k : Option Nat)
  | cancelPipeF
  | cancelPipeR
  | callbackDead (reason : Reason)
  | freeState
  | registerConnectTimer (ok : Bool)
  | startConnect (ok : Bool)
  | registerHandshakeTimer (ok : Bool)
  | startHandshake (sock : Int) (ok : Bool)
  | setSockOpts
  | startPipeF (ok : Bool)
  | startPipeR (ok : Bool)
deriving DecidableEq, Repr

/-- Mirror of `struct conn_state` (proto_conn.c lines 20-42). -/
structure ConnState where
  callback_dead : Reason → Int
  sas : Option Unit
  decr : Bool
  nopfs : Bool
  requirepfs : Bool
  nokeepalive : Bool
  timeo : Nat
  s : Int
  t : Int
  connect_cookie : Option Unit
  connect_timeout_cookie : Option Unit
  handshake_cookie : Option Unit
  handshake_timeout_cookie : Option Unit
  k_f : Option Nat
  k_r : Option Nat
  pipe_f : Option Unit
  pipe_r : Option Unit
  stat_f : Int
  stat_r : Int

/-- Result of one callback invocation: the connection stays live (returning
`ret` to the event loop), or it was dropped with `reason` (the callback
returning `ret`), or an `assert` in the callback failed. -/
inductive CbResult where
  | live (C : ConnState) (ret : Int)
  | dropped (reason : Reason) (ret : Int)
  | assertFailed

/-- Mirror of `proto_conn_drop(conn_cookie, reason)` (proto_conn.c lines 143-191),
as the trace of teardown actions it performs plus its return code.  The
trace is accumulated in the statement order of the C body. -/
def proto_conn_drop (C : ConnState) (reason : Reason) : List Act × Int :=
  -- close(C->s)
  let tr := [Act.closeFd C.s]
  -- if (C->t != -1) close(C->t)
  let tr := tr ++ (if C.t = -1 then [] else [Act.closeFd C.t])
  -- if (C->connect_cookie != NULL) network_connect_cancel(...)
  let tr := tr ++ (if C.connect_cookie = none then [] else [Act.cancelConnect])
  -- sock_addr_freelist(C->sas)  (unconditional; freelist tolerates NULL)
  let tr := tr ++ [Act.freeAddrList]
  -- if (C->handshake_cookie != NULL) proto_handshake_cancel(...)
  let tr := tr ++ (if C.handshake_cookie = none then [] else [Act.cancelHandshake])
  -- if (C->connect_timeout_cookie != NULL) events_timer_cancel(...)
  let tr := tr ++ (if C.connect_timeout_cookie = none then [] else [Act.cancelConnectTimer])
  -- if (C->handshake_timeout_cookie != NULL) events_timer_cancel(...)
  let tr := tr ++ (if C.handshake_timeout_cookie = none then [] else [Act.cancelHandshakeTimer])
  -- proto_crypt_free(C->k_f); proto_crypt_free(C->k_r)  (free tolerates NULL)
  let tr := tr ++ [Act.freeKey C.k_f, Act.freeKey C.k_r]
  -- if (C->pipe_f != NULL) proto_pipe_cancel(...)
  let tr := tr ++ (if C.pipe_f = none then [] else [Act.cancelPipeF])
  -- if (C->pipe_r != NULL) proto_pipe_cancel(...)
  let tr := tr ++ (if C.pipe_r = none then [] else [Act.cancelPipeR])
  -- rc = (C->callback_dead)(C->cookie, reason); free(C); return (rc)
  (tr ++ [Act.callbackDead reason, Act.freeState], C.callback_dead reason)

/-- Recognizer for the upstream death notification inside a trace. -/
def isDeadAction : Act → Bool
  | Act.callbackDead _ => true
  | _ => false

/-- Outcomes of the two fallible external calls made by `starthandshake`:
the `events_timer_register_double` and the `proto_handshake` call. -/
structure HsEnv where
  timerOk : Bool
  hsOk : Bool
deriving DecidableEq, Repr

/-- Outcomes of the fallible external calls available to a completion
callback: a possible `starthandshake` and the two `proto_pipe` calls. -/
structure CbEnv where
  hs : HsEnv
  pipeFOk : Bool
  pipeROk : Bool
deriving DecidableEq, Repr

/-- Outcomes of the fallible external calls made by `proto_conn_create`:
the connect timer, the `network_connect_bind`, and (when decrypting) the
nested `starthandshake`. -/
structure CreateEnv where
  timerOk : Bool
  connectOk : Bool
  hs : HsEnv
deriving DecidableEq, Repr

/-- Mirror of `starthandshake(C, s, decr)` (proto_conn.c lines 52-75): trace,
updated state, and success flag (`true` = the C function returned 0). -/
def starthandshake (C : ConnState) (sock : Int) (env : HsEnv) :
    List Act × ConnState × Bool :=
  -- if ((C->handshake_timeout_cookie = events_timer_register_double(..)) == NULL) goto err0
  if env.timerOk then
    let C1 := { C with handshake_timeout_cookie := some () }
    -- if ((C->handshake_cookie = proto_handshake(..)) == NULL) goto err1
    if env.hsOk then
      ([Act.registerHandshakeTimer true, Act.startHandshake sock true],
        { C1 with handshake_cookie := some () }, true)
    else
      -- err1: events_timer_cancel(C->handshake_timeout_cookie); = NULL
      ([Act.registerHandshakeTimer true, Act.startHandshake sock false,
        Act.cancelHandshakeTimer],
        { C1 with handshake_timeout_cookie := none }, false)
  else
    ([Act.registerHandshakeTimer false], C, false)

/-- Mirror of `launchpipes(C)` (proto_conn.c lines 78-136): trace, updated state, and
success flag.  The four advisory `setsockopt` calls are one `setSockOpts`
action; their failures are ignored by the C code and not modelled. -/
def launchpipes (C : ConnState) (env : CbEnv) : List Act × ConnState × Bool :=
  -- if ((C->pipe_f = proto_pipe(C->s, C->t, C->decr, C->k_f, ..)) == NULL) goto err0
  if env.pipeFOk then
    let C1 := { C with pipe_f := some () }
    -- if ((C->pipe_r = proto_pipe(C->t, C->s, !C->decr, C->k_r, ..)) == NULL) goto err0
    if env.pipeROk then
      ([Act.setSockOpts, Act.startPipeF true, Act.startPipeR true],
        { C1 with pipe_r := some () }, true)
    else
      ([Act.setSockOpts, Act.startPipeF true, Act.startPipeR false], C1, false)
  else
    ([Act.setSockOpts, Act.startPipeF false], C, false)

/-- The state built by `proto_conn_create` before it registers anything
(proto_conn.c lines 219-238). -/
def initConnState (s : Int) (decr nopfs requirepfs nokeepalive : Bool)
    (timeo : Nat) (cb : Reason → Int) : ConnState :=
  { callback_dead := cb
    sas := some ()
    decr := decr
    nopfs := nopfs
    requirepfs := requirepfs
    nokeepalive := nokeepalive
    timeo := timeo
    s := s
    t := -1
    connect_cookie := none
    connect_timeout_cookie := none
    handshake_cookie := none
    handshake_timeout_cookie := none
    k_f := none
    k_r := none
    pipe_f := none
    pipe_r := none
    stat_f := 1
    stat_r := 1 }

/-- Mirror of `proto_conn_create(s, sas, sa_b, decr, ...)` (proto_conn.c lines
210-268): trace plus either the new connection state or `none` on failure.
The contents of the target-address list `sas` and of the bind address
`sa_b` are never examined here, so they do not appear as arguments; the
state's `sas` field records ownership of the list. -/
def proto_conn_create (s : Int) (decr nopfs requirepfs nokeepalive : Bool)
    (timeo : Nat) (cb : Reason → Int) (env : CreateEnv) :
    List Act × Option ConnState :=
  let C0 := initConnState s decr nopfs requirepfs nokeepalive timeo cb
  -- if ((C->connect_timeout_cookie = events_timer_register_double(..)) == NULL) goto err1
  if env.timerOk then
    let C1 := { C0 with connect_timeout_cookie := some () }
    -- if ((C->connect_cookie = network_connect_bind(..)) == NULL) goto err2
    if env.connectOk then
      let C2 := { C1 with connect_cookie := some () }
      -- if (C->decr) { if (starthandshake(C, C->s, C->decr)) goto err3; }
      if decr then
        let hs := starthandshake C2 C2.s env.hs
        if hs.2.2 then
          ([Act.registerConnectTimer true, Act.startConnect true] ++ hs.1, some hs.2.1)
        else
          -- err3: network_connect_cancel; err2: events_timer_cancel; err1: free(C)
          ([Act.registerConnectTimer true, Act.startConnect true] ++ hs.1 ++
            [Act.cancelConnect, Act.cancelConnectTimer, Act.freeState], none)
      else
        ([Act.registerConnectTimer true, Act.startConnect true], some C2)
    else
      ([Act.registerConnectTimer true, Act.startConnect false,
        Act.cancelConnectTimer, Act.freeState], none)
  else
    ([Act.registerConnectTimer false, Act.freeState], none)

/-- Mirror of `callback_connect_done(cookie, t)` (proto_conn.c lines 271-311). -/
def callback_connect_done (C : ConnState) (t : Int) (env : CbEnv) :
    List Act × CbResult :=
  -- C->connect_cookie = NULL
  let C1 := { C with connect_cookie := none }
  -- sock_addr_freelist(C->sas); C->sas = NULL
  let C2 := { C1 with sas := none }
  -- events_timer_cancel(C->connect_timeout_cookie); C->connect_timeout_cookie = NULL
  let C3 := { C2 with connect_timeout_cookie := none }
  let pre := [Act.freeAddrList, Act.cancelConnectTimer]
  -- if ((C->t = t) == -1) return (proto_conn_drop(C, PROTO_CONN_CONNECT_FAILED))
  let C4 := { C3 with t := t }
  if t = -1 then
    let d := proto_conn_drop C4 Reason.connectFailed
    (pre ++ d.1, CbResult.dropped Reason.connectFailed d.2)
  else
    -- if (!C->decr) { if (starthandshake(C, C->t, C->decr)) goto err1; }
    let hs := if C4.decr then ([], C4, true) else starthandshake C4 C4.t env.hs
    if hs.2.2 then
      let C5 := hs.2.1
      -- if ((C->t != -1) && (C->k_f != NULL) && (C->k_r != NULL)) { if (launchpipes(C)) goto err1; }
      if (C5.t ≠ -1) ∧ (C5.k_f ≠ none) ∧ (C5.k_r ≠ none) then
        let lp := launchpipes C5 env
        if lp.2.2 then
          (pre ++ hs.1 ++ lp.1, CbResult.live lp.2.1 0)
        else
          -- err1: proto_conn_drop(C, PROTO_CONN_ERROR); return (-1)
          let d := proto_conn_drop lp.2.1 Reason.error
          (pre ++ hs.1 ++ lp.1 ++ d.1, CbResult.dropped Reason.error (-1))
      else
        (pre ++ hs.1, CbResult.live C5 0)
    else
      let d := proto_conn_drop hs.2.1 Reason.error
      (pre ++ hs.1 ++ d.1, CbResult.dropped Reason.error (-1))

/-- Mirror of `callback_connect_timeout(cookie)` (proto_conn.c lines 314-331).  The
address list is deliberately not freed here; drop does it after cancelling
the connect. -/
def callback_connect_timeout (C : ConnState) : List Act × CbResult :=
  -- C->connect_timeout_cookie = NULL
  let C1 := { C with connect_timeout_cookie := none }
  -- return (proto_conn_drop(C, PROTO_CONN_ERROR))
  let d := proto_conn_drop C1 Reason.error
  (d.1, CbResult.dropped Reason.error d.2)

/-- Mirror of `callback_handshake_done(cookie, f, r)` (proto_conn.c lines 334-373).
The two `assert` statements are modelled by the `assertFailed` result. -/
def callback_handshake_done (C : ConnState) (f r : Option Nat) (env : CbEnv) :
    List Act × CbResult :=
  -- C->handshake_cookie = NULL
  let C1 := { C with handshake_cookie := none }
  -- events_timer_cancel(C->handshake_timeout_cookie); C->handshake_timeout_cookie = NULL
  let C2 := { C1 with handshake_timeout_cookie := none }
  let pre := [Act.cancelHandshakeTimer]
  -- if ((f == NULL) && (r == NULL)) return (proto_conn_drop(C, PROTO_CONN_HANDSHAKE_FAILED))
  if f = none ∧ r = none then
    let d := proto_conn_drop C2 Reason.handshakeFailed
    (pre ++ d.1, CbResult.dropped Reason.handshakeFailed d.2)
  -- assert(f != NULL); assert(r != NULL)
  else if f = none ∨ r = none then
    (pre, CbResult.assertFailed)
  else
    -- C->k_f = f; C->k_r = r
    let C3 := { C2 with k_f := f, k_r := r }
    -- if ((C->t != -1) && (C->k_f != NULL) && (C->k_r != NULL)) { if (launchpipes(C)) goto err1; }
    if (C3.t ≠ -1) ∧ (C3.k_f ≠ none) ∧ (C3.k_r ≠ none) then
      let lp := launchpipes C3 env
      if lp.2.2 then
        (pre ++ lp.1, CbResult.live lp.2.1 0)
      else
        -- err1: proto_conn_drop(C, PROTO_CONN_ERROR); return (-1)
        let d := proto_conn_drop lp.2.1 Reason.error
        (pre ++ lp.1 ++ d.1, CbResult.dropped Reason.error (-1))
    else
      (pre, CbResult.live C3 0)

/-- Mirror of `callback_handshake_timeout(cookie)` (proto_conn.c lines 376-386). -/
def callback_handshake_timeout (C : ConnState) : List Act × CbResult :=
  -- C->handshake_timeout_cookie = NULL
  let C1 := { C with handshake_timeout_cookie := none }
  -- return (proto_conn_drop(C, PROTO_CONN_ERROR))
  let d := proto_conn_drop C1 Reason.error
  (d.1, CbResult.dropped Reason.error d.2)

/-- Mirror of `callback_pipestatus(cookie)` (proto_conn.c lines 389-404), reading the
status words already updated by the pipe that invoked it. -/
def callback_pipestatus (C : ConnState) : List Act × CbResult :=
  -- if ((C->stat_f == -1) || (C->stat_r == -1)) proto_conn_drop(C, PROTO_CONN_ERROR)
  if C.stat_f = -1 ∨ C.stat_r = -1 then
    let d := proto_conn_drop C Reason.error
    (d.1, CbResult.dropped Reason.error d.2)
  -- if ((C->stat_f == 0) && (C->stat_r == 0)) proto_conn_drop(C, PROTO_CONN_CLOSED)
  else if C.stat_f = 0 ∧ C.stat_r = 0 then
    let d := proto_conn_drop C Reason.closed
    (d.1, CbResult.dropped Reason.closed d.2)
  else
    ([], CbResult.live C 0)

/-- One event-loop turn that leaves the connection alive.  A completion
callback can fire only while its cancellation cookie is registered; the
handshake primitive delivers either two keys or `(NULL, NULL)` (spec §6);
a pipe reports status only after the pipes were launched, writing the new
status words before invoking the callback. -/
inductive Step : ConnState → ConnState → Prop where
  | connectDone (C C' : ConnState) (t : Int) (env : CbEnv) (ret : Int) :
      C.connect_cookie ≠ none →
      (callback_connect_done C t env).2 = CbResult.live C' ret →
      Step C C'
  | handshakeDone (C C' : ConnState) (f r : Option Nat) (env : CbEnv) (ret : Int) :
      C.handshake_cookie ≠ none →
      (f = none ↔ r = none) →
      (callback_handshake_done C f r env).2 = CbResult.live C' ret →
      Step C C'
  | pipeStatus (C C' : ConnState) (sf sr : Int) (ret : Int) :
      C.pipe_f ≠ none →
      (callback_pipestatus { C with stat_f := sf, stat_r := sr }).2
        = CbResult.live C' ret →
      Step C C'

/-- Connection states visible between event-loop turns: successful
`proto_conn_create` results, closed under live steps. -/
inductive Reachable : ConnState → Prop where
  | init (s : Int) (decr nopfs requirepfs nokeepalive : Bool) (timeo : Nat)
      (cb : Reason → Int) (env : CreateEnv) (C : ConnState) :
      (proto_conn_create s decr nopfs requirepfs nokeepalive timeo cb env).2 = some C →
      Reachable C
  | step (C C' : ConnState) : Reachable C → Step C C' → Reachable C'

/-- The between-turns invariant of the connection state (spec §3). -/
def ConnInv (C : ConnState) : Prop :=
  (C.k_f = none ↔ C.k_r = none) ∧
  (C.pipe_f = none ↔ C.pipe_r = none) ∧
  (C.pipe_f ≠ none ↔ (C.t ≠ -1 ∧ C.k_f ≠ none ∧ C.k_r ≠ none)) ∧
  (C.connect_cookie ≠ none → C.t = -1) ∧
  (C.handshake_cookie ≠ none → C.k_f = none) ∧
  (C.decr = false → C.k_f = none ∨ C.t ≠ -1) ∧
  (C.decr = false → C.handshake_cookie ≠ none → C.t ≠ -1)

/-- Kinds of cancellable handles registered by `proto_conn_create`. -/
inductive HKind where
  | connTimer
  | conn
  | hsTimer
  | hs
deriving DecidableEq, Repr

/-- The handle successfully registered by an action, if any. -/
def regKind : Act → Option HKind
  | Act.registerConnectTimer true => some HKind.connTimer
  | Act.startConnect true => some HKind.conn
  | Act.registerHandshakeTimer true => some HKind.hsTimer
  | Act.startHandshake _ true => some HKind.hs
  | _ => none

/-- The handle cancelled by an action, if any. -/
def cancelKind : Act → Option HKind
  | Act.cancelConnectTimer => some HKind.connTimer
  | Act.cancelConnect => some HKind.conn
  | Act.cancelHandshakeTimer => some HKind.hsTimer
  | Act.cancelHandshake => some HKind.hs
  | _ => none

/-- Handles registered along a trace, in order. -/
def regsOf (tr : List Act) : List HKind := tr.filterMap regKind

/-- Handles cancelled along a trace, in order. -/
def cancelsOf (tr : List Act) : List HKind := tr.filterMap cancelKind

/-!
Socket-address utilities, src/libcperciva/util/sock_util.c.

A `struct sock_addr` carries `{ ai_family, ai_socktype, namelen, name }`
where `name` points at `namelen` raw bytes.  The record below stores the
name as its byte list, so `namelen` is `name.length`; the two int fields
hold the raw non-negative value of the corresponding machine word.  The
serialized form memcpy's the host representations of the two ints and the
socklen_t, so the byte widths `SI = sizeof(int)` and `SL = sizeof(socklen_t)`
are explicit parameters (the format is declared machine-dependent), with
multi-byte values laid out in a fixed byte order.
-/

/-- Mirror of `struct sock_addr` (sock_internal.h), with `namelen`
identified with the length of the stored byte list. -/
structure sock_addr where
  ai_family : Nat
  ai_socktype : Nat
  name : List Nat
deriving DecidableEq, Repr

/-- The `w`-byte in-memory representation of machine-word value `n`. -/
def encWord : Nat → Nat → List Nat
  | 0, _ => []
  | w + 1, n => (n % 256) :: encWord w (n / 256)

/-- Read a machine word back out of its in-memory bytes. -/
def decWord : List Nat → Nat
  | [] => 0
  | b :: bs => b % 256 + 256 * decWord bs

/-- Mirror of `sock_addr_serialize(sa, buf, buflen)` (sock_util.c lines 126-152):
the allocated buffer contents.  The buffer length is
`2 * sizeof(int) + sizeof(socklen_t) + sa->namelen` by construction;
allocation failure (the only failure path) is not modelled. -/
def sock_addr_serialize (SI SL : Nat) (sa : sock_addr) : List Nat :=
  encWord SI sa.ai_family ++ encWord SI sa.ai_socktype ++
    encWord SL sa.name.length ++ sa.name

/-- Mirror of `sock_addr_deserialize(buf, buflen)` (sock_util.c lines 158-192).
Failure (`NULL`) is `none`; allocation failures are not modelled. -/
def sock_addr_deserialize (SI SL : Nat) (buf : List Nat) : Option sock_addr :=
  -- if (buflen < 2 * sizeof(int) + sizeof(socklen_t)) goto err0
  if buf.length < 2 * SI + SL then none
  else
    -- memcpy(&sa->ai_family, buf, ..); memcpy(&sa->ai_socktype, ..); memcpy(&sa->namelen, ..)
    let fam := decWord (buf.take SI)
    let st := decWord ((buf.drop SI).take SI)
    let nl := decWord (((buf.drop SI).drop SI).take SL)
    -- if (buflen != 2 * sizeof(int) + sizeof(socklen_t) + sa->namelen) goto err1
    if buf.length ≠ 2 * SI + SL + nl then none
    -- memcpy(sa->name, buf, sa->namelen)
    else some ⟨fam, st, (((buf.drop SI).drop SI).drop SL).take nl⟩

/-- Mirror of `sock_addr_ensure_port(addr)` (sock_util.c lines 288-351), on the
character list of the NUL-terminated input.  `strchr(addr, c) == NULL`
is "no occurrence"; `a == b` compares the first and last occurrence of
a ':', i.e. holds iff there is exactly one; `c[1] == aNUL` says the last
`]` is the final character.  The C function returns a freshly allocated
string (or NULL on allocation failure, which is not modelled); equality
below is string-content equality. -/
def sock_addr_ensure_port (addr : List Char) : List Char :=
  -- if (addr[0] == aSlash) return (strdup(addr))
  if addr.headD '\x00' = '/' then addr
  -- else if (a == NULL) asprintf(&bind_addr, "%s:0", addr)
  else if addr.countP (fun ch => ch == ':') = 0 then addr ++ [':', '0']
  -- else if (a == b) return (strdup(addr))
  else if addr.countP (fun ch => ch == ':') = 1 then addr
  -- else if (c == NULL) asprintf(&bind_addr, "[%s]:0", addr)
  else if ']' ∉ addr then '[' :: (addr ++ [']', ':', '0'])
  -- else if (c[1] == aNUL) asprintf(&bind_addr, "%s:0", addr)
  else if addr.getLast? = some ']' then addr ++ [':', '0']
  -- else return (strdup(addr))
  else addr

/-- A string that already carries a port, in the three shapes named by the
spec: a UNIX path `/p`; an IPv4 `host:p` (exactly one ':'); an IPv6
`[h]:p` (two or more ':', with a `]` that is not the final character). -/
def hasPortForm (addr : List Char) : Prop :=
  (addr.headD '\x00' = '/') ∨
  (addr.headD '\x00' ≠ '/' ∧ addr.countP (fun ch => ch == ':') = 1) ∨
  (addr.headD '\x00' ≠ '/' ∧ 2 ≤ addr.countP (fun ch => ch == ':') ∧
    ']' ∈ addr ∧ addr.getLast? ≠ some ']')

/-- A concrete environment in which every external call succeeds. -/
def envAllOk : CreateEnv := ⟨true, true, ⟨true, true⟩⟩

/-- A concrete death callback used in witness states. -/
def cbZero : Reason → Int := fun _ => 0

/-- The state produced by a successful `proto_conn_create` on the
encrypting side (`decr = 0`) with `s = 5`, `timeo = 30`. -/
def exConnEncr : ConnState :=
  { callback_dead := cbZero
    sas := some ()
    decr := false
    nopfs := false
    requirepfs := false
    nokeepalive := false
    timeo := 30
    s := 5
    t := -1
    connect_cookie := some ()
    connect_timeout_cookie := some ()
    handshake_cookie := none
    handshake_timeout_cookie := none
    k_f := none
    k_r := none
    pipe_f := none
    pipe_r := none
    stat_f := 1
    stat_r := 1 }

/-- The state produced by a successful `proto_conn_create` on the
decrypting side (`decr = 1`) with `s = 5`, `timeo = 30`: the handshake on
`s` is already in flight when create returns. -/
def exConnDecr : ConnState :=
  { exConnEncr with
    decr := true
    handshake_cookie := some ()
    handshake_timeout_cookie := some () }

/-! Theorems.  Each claim of the specification gets one theorem below,
preceded by helper lemmas where needed. -/

theorem getLast?_append_pair {α : Type} (l : List α) (a b : α) :
    (l ++ [a, b]).getLast? = some b := by
  have h : l ++ [a, b] = (l ++ [a]) ++ [b] := by simp
  rw [h, List.getLast?_concat]

/-- C1: `proto_conn_drop`, on a live connection state, performs teardown in
exactly the spec's order — close `s`; close `t` iff `t != -1`; cancel the
dial iff its handle is non-null; release the address list; cancel the
handshake iff its handle is non-null; cancel each of the two timers iff its
handle is non-null; free both keys; cancel each pipe iff its handle is
non-null; invoke the death callback exactly once with the given reason;
free the state; and return the death callback's return code — with each
conditional step skipped iff the resource is already absent. -/
theorem proto_conn_drop_order (C : ConnState) (reason : Reason) :
    proto_conn_drop C reason =
      ([Act.closeFd C.s]
        ++ (if C.t ≠ -1 then [Act.closeFd C.t] else [])
        ++ (if C.connect_cookie ≠ none then [Act.cancelConnect] else [])
        ++ [Act.freeAddrList]
        ++ (if C.handshake_cookie ≠ none then [Act.cancelHandshake] else [])
        ++ (if C.connect_timeout_cookie ≠ none then [Act.cancelConnectTimer] else [])
        ++ (if C.handshake_timeout_cookie ≠ none then [Act.cancelHandshakeTimer] else [])
        ++ [Act.freeKey C.k_f, Act.freeKey C.k_r]
        ++ (if C.pipe_f ≠ none then [Act.cancelPipeF] else [])
        ++ (if C.pipe_r ≠ none then [Act.cancelPipeR] else [])
        ++ [Act.callbackDead reason, Act.freeState],
       C.callback_dead reason) ∧
    (proto_conn_drop C reason).1.countP isDeadAction = 1 ∧
    (proto_conn_drop C reason).1.getLast? = some Act.freeState := by
  refine ⟨?_, ?_, ?_⟩
  · simp only [proto_conn_drop, ite_not, List.append_assoc]
  · simp only [proto_conn_drop, List.countP_append, List.countP_cons, List.countP_nil,
      apply_ite (List.countP isDeadAction), isDeadAction, ite_self]
    simp [isDeadAction]
  · simp only [proto_conn_drop]
    exact getLast?_append_pair _ _ _

/-- C4: for every status pair in `{-1,0,1}^2`, one invocation of the pipe
status callback does exactly: if either status is `-1`, drop the connection
with reason `ERROR` (returning the death callback's code); else if both are
`0`, drop with reason `CLOSED`; otherwise change nothing and return `0`. -/
theorem pipestatus_policy (C : ConnState)
    (hf : C.stat_f = -1 ∨ C.stat_f = 0 ∨ C.stat_f = 1)
    (hr : C.stat_r = -1 ∨ C.stat_r = 0 ∨ C.stat_r = 1) :
    ((C.stat_f = -1 ∨ C.stat_r = -1) →
      (callback_pipestatus C).2
        = CbResult.dropped Reason.error (C.callback_dead Reason.error)) ∧
    (¬(C.stat_f = -1 ∨ C.stat_r = -1) → (C.stat_f = 0 ∧ C.stat_r = 0) →
      (callback_pipestatus C).2
        = CbResult.dropped Reason.closed (C.callback_dead Reason.closed)) ∧
    (¬(C.stat_f = -1 ∨ C.stat_r = -1) → ¬(C.stat_f = 0 ∧ C.stat_r = 0) →
      callback_pipestatus C = ([], CbResult.live C 0)) := by
  refine ⟨?_, ?_, ?_⟩
  · intro h
    simp [callback_pipestatus, h, proto_conn_drop]
  · intro h1 h2
    simp [callback_pipestatus, h1, h2, proto_conn_drop]
  · intro h1 h2
    simp [callback_pipestatus, h1, h2]

/-- C4 witness: both statuses running (the `(1, 1)` cell of the table) is a
noop returning `0`. -/
theorem pipestatus_policy_w :
    callback_pipestatus exConnEncr = ([], CbResult.live exConnEncr 0) :=
  (pipestatus_policy exConnEncr (by decide) (by decide)).2.2 (by decide) (by decide)

theorem encWord_length (w n : Nat) : (encWord w n).length = w := by
  induction w generalizing n with
  | zero => rfl
  | succ w ih => simp [encWord, ih]

theorem decWord_encWord (w n : Nat) (h : n < 256 ^ w) :
    decWord (encWord w n) = n := by
  induction w generalizing n with
  | zero =>
    interval_cases n
    rfl
  | succ w ih =>
    have hdiv : n / 256 < 256 ^ w := by
      rw [Nat.div_lt_iff_lt_mul (by norm_num)]
      calc n < 256 ^ (w + 1) := h
        _ = 256 ^ w * 256 := by ring
    simp [encWord, decWord, ih _ hdiv]
    omega

theorem serialize_decompose (SI SL : Nat) (sa : sock_addr) :
    (sock_addr_serialize SI SL sa).length = 2 * SI + SL + sa.name.length ∧
    (sock_addr_serialize SI SL sa).take SI = encWord SI sa.ai_family ∧
    (((sock_addr_serialize SI SL sa).drop SI).take SI = encWord SI sa.ai_socktype) ∧
    ((((sock_addr_serialize SI SL sa).drop SI).drop SI).take SL
      = encWord SL sa.name.length) ∧
    ((((sock_addr_serialize SI SL sa).drop SI).drop SI).drop SL = sa.name) := by
  unfold sock_addr_serialize
  have h1 : (encWord SI sa.ai_family).length = SI := encWord_length _ _
  have h2 : (encWord SI sa.ai_socktype).length = SI := encWord_length _ _
  have h3 : (encWord SL sa.name.length).length = SL := encWord_length _ _
  simp only [List.append_assoc]
  refine ⟨?_, ?_, ?_, ?_, ?_⟩
  · simp [h1, h2, h3]
    ring
  · rw [List.take_left' h1]
  · rw [List.drop_left' h1, List.take_left' h2]
  · rw [List.drop_left' h1, List.drop_left' h2, List.take_left' h3]
  · rw [List.drop_left' h1, List.drop_left' h2, List.drop_left' h3]

/-- C6: for every valid address `a`, deserializing the bytes produced by
serializing `a` with the same host word widths yields an address equal to
`a` (same family, same socket type, same name length, same name bytes). -/
theorem sock_addr_roundtrip (SI SL : Nat) (sa : sock_addr)
    (hf : sa.ai_family < 256 ^ SI) (hs : sa.ai_socktype < 256 ^ SI)
    (hn : sa.name.length < 256 ^ SL) (hb : ∀ b ∈ sa.name, b < 256) :
    sock_addr_deserialize SI SL (sock_addr_serialize SI SL sa) = some sa := by
  obtain ⟨hlen, htf, hts, htl, htn⟩ := serialize_decompose SI SL sa
  unfold sock_addr_deserialize
  rw [hlen, htf, hts, htl, htn, decWord_encWord _ _ hf, decWord_encWord _ _ hs,
    decWord_encWord _ _ hn]
  simp

/-- C6 witness: the round trip at 4-byte `int` and `socklen_t` on an
`AF_INET`/`SOCK_STREAM` style address with a 3-byte name. -/
theorem sock_addr_roundtrip_w :
    sock_addr_deserialize 4 4 (sock_addr_serialize 4 4 ⟨2, 1, [9, 8, 7]⟩)
      = some ⟨2, 1, [9, 8, 7]⟩ :=
  sock_addr_roundtrip 4 4 ⟨2, 1, [9, 8, 7]⟩ (by decide) (by decide) (by decide)
    (by decide)

/-- C7: `sock_addr_deserialize` returns failure for every buffer shorter
than the fixed header (two ints plus one socklen_t), and for every buffer
whose declared name length does not make header-plus-name-length exactly
the buffer length; it succeeds exactly when the declared name length
consumes the remainder. -/
theorem deserialize_length_check (SI SL : Nat) (buf : List Nat) :
    (buf.length < 2 * SI + SL → sock_addr_deserialize SI SL buf = none) ∧
    (sock_addr_deserialize SI SL buf = none ↔
      (buf.length < 2 * SI + SL ∨
        buf.length ≠ 2 * SI + SL + decWord (((buf.drop SI).drop SI).take SL))) := by
  constructor
  · intro h
    simp [sock_addr_deserialize, h]
  · unfold sock_addr_deserialize
    split_ifs with h1 h2 <;> simp_all

/-- C7 witness: an 11-byte buffer is shorter than the 12-byte header at
4-byte words and is rejected. -/
theorem deserialize_length_check_w :
    sock_addr_deserialize 4 4 [0, 0, 0, 0, 0, 0, 0, 0, 0, 0, 0] = none :=
  (deserialize_length_check 4 4 [0, 0, 0, 0, 0, 0, 0, 0, 0, 0, 0]).1 (by decide)

theorem hasPortForm_fixed (x : List Char) (h : hasPortForm x) :
    sock_addr_ensure_port x = x := by
  unfold sock_addr_ensure_port
  rcases h with h1 | ⟨h1, h2⟩ | ⟨h1, h2, h3, h4⟩
  · rw [if_pos h1]
  · have c0 : ¬(x.countP (fun ch => ch == ':') = 0) := by omega
    rw [if_neg h1, if_neg c0, if_pos h2]
  · have c0 : ¬(x.countP (fun ch => ch == ':') = 0) := by omega
    have c1 : ¬(x.countP (fun ch => ch == ':') = 1) := by omega
    rw [if_neg h1, if_neg c0, if_neg c1, if_neg (not_not_intro h3), if_neg h4]

theorem countP_colon_pair (x : List Char) :
    (x ++ [':', '0']).countP (fun ch => ch == ':')
      = x.countP (fun ch => ch == ':') + 1 := by
  rw [List.countP_append]
  rfl

theorem headD_append_pair (x : List Char) (h : x.headD '\x00' ≠ '/')
    (a b : Char) (ha : a ≠ '/') : (x ++ [a, b]).headD '\x00' ≠ '/' := by
  cases x with
  | nil => exact ha
  | cons c cs => exact h

/-- C8: `sock_addr_ensure_port` is idempotent — applying it to its own
result returns that result unchanged — and on every input already carrying
a port (a UNIX path `/p`, an IPv4 `host:p`, an IPv6 `[h]:p`) it returns its
input verbatim. -/
theorem ensure_port_idem :
    (∀ x : List Char,
      sock_addr_ensure_port (sock_addr_ensure_port x) = sock_addr_ensure_port x) ∧
    (∀ x : List Char, hasPortForm x → sock_addr_ensure_port x = x) := by
  refine ⟨?_, hasPortForm_fixed⟩
  intro x
  by_cases h1 : x.headD '\x00' = '/'
  · rw [hasPortForm_fixed x (Or.inl h1)]
    exact hasPortForm_fixed x (Or.inl h1)
  by_cases h2 : x.countP (fun ch => ch == ':') = 0
  · have hx : sock_addr_ensure_port x = x ++ [':', '0'] := by
      unfold sock_addr_ensure_port
      rw [if_neg h1, if_pos h2]
    rw [hx]
    apply hasPortForm_fixed
    refine Or.inr (Or.inl ⟨?_, ?_⟩)
    · exact headD_append_pair x h1 ':' '0' (by decide)
    · rw [countP_colon_pair, h2]
  by_cases h3 : x.countP (fun ch => ch == ':') = 1
  · have hx : sock_addr_ensure_port x = x :=
      hasPortForm_fixed x (Or.inr (Or.inl ⟨h1, h3⟩))
    rw [hx]
    exact hx
  by_cases h4 : ']' ∈ x
  · by_cases h5 : x.getLast? = some ']'
    · have hx : sock_addr_ensure_port x = x ++ [':', '0'] := by
        unfold sock_addr_ensure_port
        rw [if_neg h1, if_neg h2, if_neg h3, if_neg (not_not_intro h4), if_pos h5]
      rw [hx]
      apply hasPortForm_fixed
      refine Or.inr (Or.inr ⟨?_, ?_, ?_, ?_⟩)
      · exact headD_append_pair x h1 ':' '0' (by decide)
      · rw [countP_colon_pair]
        omega
      · exact List.mem_append.mpr (Or.inl h4)
      · rw [getLast?_append_pair]
        decide
    · have hx : sock_addr_ensure_port x = x :=
        hasPortForm_fixed x (Or.inr (Or.inr ⟨h1, by omega, h4, h5⟩))
      rw [hx]
      exact hx
  · have hx : sock_addr_ensure_port x = '[' :: (x ++ [']', ':', '0']) := by
      unfold sock_addr_ensure_port
      rw [if_neg h1, if_neg h2, if_neg h3, if_pos h4]
    rw [hx]
    apply hasPortForm_fixed
    refine Or.inr (Or.inr ⟨?_, ?_, ?_, ?_⟩)
    · show ('[' : Char) ≠ '/'
      decide
    · rw [List.countP_cons, List.countP_append]
      have hc : (([']', ':', '0'] : List Char).countP (fun ch => ch == ':')) = 1 := by
        decide
      rw [hc]
      omega
    · exact List.mem_cons_of_mem _ (List.mem_append.mpr (Or.inr (by decide)))
    · have hrw : '[' :: (x ++ [']', ':', '0']) = ('[' :: (x ++ [']'])) ++ [':', '0'] := by
        simp
      rw [hrw, getLast?_append_pair]
      decide

/-- C8 witness: idempotence and verbatim behaviour at the concrete IPv6
address text `[::1]:80`. -/
theorem ensure_port_idem_w :
    sock_addr_ensure_port (sock_addr_ensure_port
        ['[', ':', ':', '1', ']', ':', '8', '0'])
      = sock_addr_ensure_port ['[', ':', ':', '1', ']', ':', '8', '0'] ∧
    sock_addr_ensure_port ['[', ':', ':', '1', ']', ':', '8', '0']
      = ['[', ':', ':', '1', ']', ':', '8', '0'] :=
  ⟨ensure_port_idem.1 ['[', ':', ':', '1', ']', ':', '8', '0'],
   ensure_port_idem.2 ['[', ':', ':', '1', ']', ':', '8', '0']
     (Or.inr (Or.inr ⟨by decide, by decide, by decide, by decide⟩))⟩

/-- C5: for every setup failure inside `proto_conn_create` (timer
registration, dial initiation, or handshake start returning failure),
create cancels exactly the handles it had already registered, in reverse
order of registration, frees the state, returns null, and never invokes
the death callback. -/
theorem create_failure_unwind (s : Int) (decr nopfs requirepfs nokeepalive : Bool)
    (timeo : Nat) (cb : Reason → Int) (env : CreateEnv)
    (h : (proto_conn_create s decr nopfs requirepfs nokeepalive timeo cb env).2 = none) :
    cancelsOf (proto_conn_create s decr nopfs requirepfs nokeepalive timeo cb env).1
      = (regsOf (proto_conn_create s decr nopfs requirepfs nokeepalive timeo cb env).1).reverse ∧
    (proto_conn_create s decr nopfs requirepfs nokeepalive timeo cb env).1.getLast?
      = some Act.freeState ∧
    ∀ reason,
      Act.callbackDead reason
        ∉ (proto_conn_create s decr nopfs requirepfs nokeepalive timeo cb env).1 := by
  rcases env with ⟨tOk, cOk, hsT, hsO⟩
  cases decr <;> cases tOk <;> cases cOk <;> cases hsT <;> cases hsO <;>
    simp_all [proto_conn_create, starthandshake, cancelsOf, regsOf, regKind,
      cancelKind]

/-- C5 witness: the dial-initiation failure path unwinds the connect timer
and frees the state without notifying upstream. -/
theorem create_failure_unwind_w :
    cancelsOf (proto_conn_create 5 false false false false 30 cbZero
        ⟨true, false, ⟨true, true⟩⟩).1
      = (regsOf (proto_conn_create 5 false false false false 30 cbZero
          ⟨true, false, ⟨true, true⟩⟩).1).reverse ∧
    (proto_conn_create 5 false false false false 30 cbZero
        ⟨true, false, ⟨true, true⟩⟩).1.getLast? = some Act.freeState ∧
    ∀ reason,
      Act.callbackDead reason
        ∉ (proto_conn_create 5 false false false false 30 cbZero
            ⟨true, false, ⟨true, true⟩⟩).1 :=
  create_failure_unwind 5 false false false false 30 cbZero
    ⟨true, false, ⟨true, true⟩⟩ rfl

/-- C9: on every failure return of `proto_conn_create`, the target address
list passed in is left untouched — no create-time rollback path performs
the release action — so on create failure ownership of `sas` remains with
the caller. -/
theorem create_failure_preserves_sas (s : Int)
    (decr nopfs requirepfs nokeepalive : Bool) (timeo : Nat) (cb : Reason → Int)
    (env : CreateEnv)
    (h : (proto_conn_create s decr nopfs requirepfs nokeepalive timeo cb env).2 = none) :
    Act.freeAddrList
      ∉ (proto_conn_create s decr nopfs requirepfs nokeepalive timeo cb env).1 := by
  rcases env with ⟨tOk, cOk, hsT, hsO⟩
  cases decr <;> cases tOk <;> cases cOk <;> cases hsT <;> cases hsO <;>
    simp_all [proto_conn_create, starthandshake]

/-- C9 witness: the deepest rollback path (handshake start failure on the
decrypting side) still performs no address-list release. -/
theorem create_failure_preserves_sas_w :
    Act.freeAddrList
      ∉ (proto_conn_create 5 true false false false 30 cbZero
          ⟨true, true, ⟨true, false⟩⟩).1 :=
  create_failure_preserves_sas 5 true false false false 30 cbZero
    ⟨true, true, ⟨true, false⟩⟩ rfl

/-- C3: if `decr` is non-zero, `proto_conn_create` starts the handshake on
socket `s` before returning (in parallel with the dial, whose handle stays
registered); if `decr` is zero, no handshake is started inside create —
the new state carries no handshake handle — and the handshake is instead
started on the dialed socket `t` from inside the dial-completion
callback. -/
theorem handshake_start_timing :
    (∀ (s : Int) (nopfs requirepfs nokeepalive : Bool) (timeo : Nat)
        (cb : Reason → Int) (env : CreateEnv) (C : ConnState),
      (proto_conn_create s true nopfs requirepfs nokeepalive timeo cb env).2 = some C →
      Act.startHandshake s true
          ∈ (proto_conn_create s true nopfs requirepfs nokeepalive timeo cb env).1 ∧
        C.handshake_cookie = some () ∧ C.connect_cookie = some ()) ∧
    (∀ (s : Int) (nopfs requirepfs nokeepalive : Bool) (timeo : Nat)
        (cb : Reason → Int) (env : CreateEnv) (sock : Int) (ok : Bool),
      Act.startHandshake sock ok
        ∉ (proto_conn_create s false nopfs requirepfs nokeepalive timeo cb env).1) ∧
    (∀ (s : Int) (nopfs requirepfs nokeepalive : Bool) (timeo : Nat)
        (cb : Reason → Int) (env : CreateEnv) (C : ConnState),
      (proto_conn_create s false nopfs requirepfs nokeepalive timeo cb env).2 = some C →
      C.handshake_cookie = none) ∧
    (∀ (C : ConnState) (t : Int) (env : CbEnv),
      C.decr = false → t ≠ -1 → env.hs.timerOk = true →
      Act.startHandshake t env.hs.hsOk ∈ (callback_connect_done C t env).1) := by
  refine ⟨?_, ?_, ?_, ?_⟩
  · intro s nopfs requirepfs nokeepalive timeo cb env C h
    rcases env with ⟨tOk, cOk, hsT, hsO⟩
    cases tOk <;> cases cOk <;> cases hsT <;> cases hsO <;>
      simp_all [proto_conn_create, starthandshake, initConnState] <;>
      (subst h; exact ⟨rfl, rfl⟩)
  · intro s nopfs requirepfs nokeepalive timeo cb env sock ok
    rcases env with ⟨tOk, cOk, hsT, hsO⟩
    cases tOk <;> cases cOk <;>
      simp_all [proto_conn_create, starthandshake]
  · intro s nopfs requirepfs nokeepalive timeo cb env C h
    rcases env with ⟨tOk, cOk, hsT, hsO⟩
    cases tOk <;> cases cOk <;>
      simp_all [proto_conn_create, starthandshake, initConnState] <;>
      (subst h; rfl)
  · intro C t env hdecr ht htimer
    rcases env with ⟨⟨hsT, hsO⟩, pf, pr⟩
    subst htimer
    cases hsO <;> cases pf <;> cases pr <;>
      cases hkf : C.k_f <;> cases hkr : C.k_r <;>
        simp_all [callback_connect_done, starthandshake, launchpipes,
          proto_conn_drop, hdecr, ht]

/-- C3 witness: on the decrypting side with all primitives succeeding,
create's trace starts the handshake on `s = 5` while the dial handle is
still registered; on the encrypting side, the dial-completion callback for
`t = 9` starts the handshake on `9`. -/
theorem handshake_start_timing_w :
    (Act.startHandshake 5 true
        ∈ (proto_conn_create 5 true false false false 30 cbZero envAllOk).1) ∧
    Act.startHandshake 9 true
      ∈ (callback_connect_done exConnEncr 9 ⟨⟨true, true⟩, true, true⟩).1 :=
  ⟨(handshake_start_timing.1 5 false false false 30 cbZero envAllOk
      exConnDecr rfl).1,
   handshake_start_timing.2.2.2 exConnEncr 9 ⟨⟨true, true⟩, true, true⟩ rfl
     (by decide) rfl⟩

/-- C10: if the handshake-completion callback receives a key pair with
exactly one null key, it hits an assertion failure rather than any drop
path; under the precondition that the handshake primitive delivers either
two non-null keys or `(null, null)`, the assertions hold and the callback
either drops with `HANDSHAKE_FAILED` or installs both keys (continuing
live, or dropping with `ERROR` only if the subsequent pipe launch fails). -/
theorem handshake_done_assert (C : ConnState) (f r : Option Nat) (env : CbEnv) :
    (((f = none ∧ r ≠ none) ∨ (f ≠ none ∧ r = none)) →
      (callback_handshake_done C f r env).2 = CbResult.assertFailed) ∧
    ((f = none ↔ r = none) →
      (callback_handshake_done C f r env).2 ≠ CbResult.assertFailed ∧
      (f = none →
        (callback_handshake_done C f r env).2
          = CbResult.dropped Reason.handshakeFailed
              (C.callback_dead Reason.handshakeFailed)) ∧
      (f ≠ none →
        ((∃ C', (callback_handshake_done C f r env).2 = CbResult.live C' 0 ∧
            C'.k_f = f ∧ C'.k_r = r) ∨
          (callback_handshake_done C f r env).2
            = CbResult.dropped Reason.error (-1)))) := by
  rcases env with ⟨⟨hsT, hsO⟩, pf, pr⟩
  cases f <;> cases r <;>
    by_cases ht : C.t = -1 <;> cases pf <;> cases pr <;>
      simp_all [callback_handshake_done, launchpipes, proto_conn_drop]

/-- C10 witness: a key pair whose reverse key is null while the forward key
is not trips the assertion. -/
theorem handshake_done_assert_w :
    (callback_handshake_done exConnEncr (some 1) none
        ⟨⟨true, true⟩, true, true⟩).2 = CbResult.assertFailed :=
  (handshake_done_assert exConnEncr (some 1) none ⟨⟨true, true⟩, true, true⟩).1
    (Or.inr ⟨by decide, rfl⟩)

theorem create_inv (s : Int) (decr nopfs requirepfs nokeepalive : Bool)
    (timeo : Nat) (cb : Reason → Int) (env : CreateEnv) (C : ConnState)
    (h : (proto_conn_create s decr nopfs requirepfs nokeepalive timeo cb env).2 = some C) :
    ConnInv C := by
  rcases env with ⟨tOk, cOk, hsT, hsO⟩
  cases decr <;> cases tOk <;> cases cOk <;> cases hsT <;> cases hsO <;>
    simp_all [proto_conn_create, starthandshake, initConnState] <;>
    (subst h; simp [ConnInv])

theorem connect_done_inv (C C' : ConnState) (t : Int) (env : CbEnv) (ret : Int)
    (hI : ConnInv C) (hcc : C.connect_cookie ≠ none)
    (heq : (callback_connect_done C t env).2 = CbResult.live C' ret) :
    ConnInv C' := by
  obtain ⟨i1, i2, i3, i4, i5, i6, i7⟩ := hI
  have ht0 : C.t = -1 := i4 hcc
  have hpf : C.pipe_f = none := by
    by_contra hp
    exact (i3.mp hp).1 ht0
  have hpr : C.pipe_r = none := i2.mp hpf
  by_cases htm : t = -1
  · simp [callback_connect_done, htm] at heq
  rcases env with ⟨⟨hsT, hsO⟩, pf, pr⟩
  cases hd : C.decr with
  | false =>
    have hk : C.k_f = none := by
      rcases i6 hd with h | h
      · exact h
      · exact absurd ht0 h
    have hkr : C.k_r = none := i1.mp hk
    cases hsT <;> cases hsO <;>
      simp_all [callback_connect_done, starthandshake, htm, ConnInv] <;>
      (obtain ⟨h1, h2⟩ := heq; subst h1; simp_all)
  | true =>
    by_cases hk : C.k_f = none
    · have hkr : C.k_r = none := i1.mp hk
      simp_all [callback_connect_done, starthandshake, htm, ConnInv]
      obtain ⟨h1, h2⟩ := heq
      subst h1
      simp_all
    · have hkr : C.k_r ≠ none := fun hr => hk (i1.mpr hr)
      have hhs : C.handshake_cookie = none := by
        by_contra hh
        exact hk (i5 hh)
      cases pf <;> cases pr <;>
        simp_all [callback_connect_done, starthandshake, launchpipes, htm, ConnInv] <;>
        (obtain ⟨h1, h2⟩ := heq; subst h1; simp_all)

theorem handshake_done_inv (C C' : ConnState) (f r : Option Nat) (env : CbEnv)
    (ret : Int) (hI : ConnInv C) (hhc : C.handshake_cookie ≠ none)
    (hfr : f = none ↔ r = none)
    (heq : (callback_handshake_done C f r env).2 = CbResult.live C' ret) :
    ConnInv C' := by
  obtain ⟨i1, i2, i3, i4, i5, i6, i7⟩ := hI
  have hk : C.k_f = none := i5 hhc
  have hpf : C.pipe_f = none := by
    by_contra hp
    exact (i3.mp hp).2.1 hk
  have hpr : C.pipe_r = none := i2.mp hpf
  rcases env with ⟨⟨hsT, hsO⟩, pf, pr⟩
  cases f with
  | none =>
    have hr : r = none := hfr.mp rfl
    simp [callback_handshake_done, hr] at heq
  | some kf =>
    have hr : r ≠ none := fun h => Option.noConfusion (hfr.mpr h)
    rcases hrx : r with _ | kr
    · exact absurd hrx hr
    by_cases htm : C.t = -1
    · -- dial still pending: keys recorded, no pipe launch
      simp_all [callback_handshake_done, htm, ConnInv]
      obtain ⟨h1, h2⟩ := heq
      subst h1
      simp_all
    · -- dial already done: pipes must launch for the callback to stay live
      cases pf <;> cases pr <;>
        simp_all [callback_handshake_done, htm, launchpipes, ConnInv] <;>
        (obtain ⟨h1, h2⟩ := heq; subst h1; simp_all)

theorem pipestatus_live (D C' : ConnState) (ret : Int)
    (heq : (callback_pipestatus D).2 = CbResult.live C' ret) : C' = D := by
  unfold callback_pipestatus at heq
  split_ifs at heq <;> simp_all

theorem step_inv (C C' : ConnState) (hI : ConnInv C) (hs : Step C C') :
    ConnInv C' := by
  cases hs with
  | connectDone t env ret hcc heq => exact connect_done_inv C C' t env ret hI hcc heq
  | handshakeDone f r env ret hhc hfr heq =>
    exact handshake_done_inv C C' f r env ret hI hhc hfr heq
  | pipeStatus sf sr ret hpf heq =>
    have h := pipestatus_live _ _ _ heq
    subst h
    obtain ⟨i1, i2, i3, i4, i5, i6, i7⟩ := hI
    exact ⟨i1, i2, i3, i4, i5, i6, i7⟩

theorem reachable_inv (C : ConnState) (h : Reachable C) : ConnInv C := by
  induction h with
  | init s decr nopfs requirepfs nokeepalive timeo cb env C hc =>
    exact create_inv s decr nopfs requirepfs nokeepalive timeo cb env C hc
  | step C C' hr hs ih => exact step_inv C C' ih hs

/-- C2: between event-loop turns, `pipe_f` is non-null iff `pipe_r` is
non-null; the pipes are launched exactly when both the dial and the
handshake have succeeded — in whichever order the two completions arrive,
both completion callbacks guard the launch with the same condition
`t != -1 && k_f != NULL && k_r != NULL`, so a live state has its pipes
installed iff that condition holds — and once installed the pipes are
never launched again (no live step changes them). -/
theorem pipes_launched_once_iff_joined (C : ConnState) (h : Reachable C) :
    (C.pipe_f ≠ none ↔ C.pipe_r ≠ none) ∧
    (C.pipe_f ≠ none ↔ (C.t ≠ -1 ∧ C.k_f ≠ none ∧ C.k_r ≠ none)) ∧
    (∀ C', Step C C' → C.pipe_f ≠ none →
      C'.pipe_f = C.pipe_f ∧ C'.pipe_r = C.pipe_r) := by
  obtain ⟨i1, i2, i3, i4, i5, i6, i7⟩ := reachable_inv C h
  refine ⟨not_iff_not.mpr i2, i3, ?_⟩
  intro C' hs hpf
  cases hs with
  | connectDone t env ret hcc heq =>
    exact absurd (i4 hcc) (i3.mp hpf).1
  | handshakeDone f r env ret hhc hfr heq =>
    exact absurd (i5 hhc) (i3.mp hpf).2.1
  | pipeStatus sf sr ret hpf2 heq =>
    have hq := pipestatus_live _ _ _ heq
    subst hq
    exact ⟨rfl, rfl⟩

/-- C2 witness: the invariant at the concrete state a successful create
returns on the encrypting side. -/
theorem pipes_launched_once_iff_joined_w :
    (exConnEncr.pipe_f ≠ none ↔ exConnEncr.pipe_r ≠ none) ∧
    (exConnEncr.pipe_f ≠ none ↔
      (exConnEncr.t ≠ -1 ∧ exConnEncr.k_f ≠ none ∧ exConnEncr.k_r ≠ none)) :=
  ⟨(pipes_launched_once_iff_joined exConnEncr
      (Reachable.init 5 false false false false 30 cbZero envAllOk exConnEncr rfl)).1,
   (pipes_launched_once_iff_joined exConnEncr
      (Reachable.init 5 false false false false 30 cbZero envAllOk exConnEncr rfl)).2.1⟩
